import Mathlib

/-!
Verification of the socketsio library (framed protocols, sockets, send queue
and the pub/sub layer) against its natural-language specification.

The Python modules are shallowly embedded: byte strings become `List Nat`
(one entry per byte), the inner transport of a wrapper protocol becomes an
explicit byte stream on which `receive(buffer = n)` yields exactly the next
`n` bytes, stateful objects become records passed explicitly, and a raised
Python exception becomes `Except.error` with the exception kind.
-/

namespace Socketsio

/-- Kinds of Python exceptions that the embedded code can raise. -/
inductive PyErr where
  | valueError
  | typeError
  | attributeError
  | keyError
  deriving DecidableEq, Repr

/-- Python `a or b` for optional values: `None` is falsy, every address or
connection object is truthy. -/
def pyOr {α : Type} (a b : Option α) : Option α :=
  match a with
  | some x => some x
  | none => b

/-! ## BHP: the buffer header protocol (protocols.py, class BHP)

The inner protocol is modelled as a faithful byte stream: `inner.send`
appends its bytes to the stream, and `inner.receive(buffer = n)` returns
exactly the next `n` bytes in order. -/

/-- Decimal digit values of a natural number, most significant first, as
Python `str(n)` renders them: `"0"` for zero and no leading zeros otherwise. -/
def pyStrNat (n : Nat) : List Nat :=
  if n = 0 then [0] else (Nat.digits 10 n).reverse

/-- ASCII bytes of `str(n)`: byte 48 is the character zero. -/
def pyStrNatAscii (n : Nat) : List Nat :=
  (pyStrNat n).map (fun d => d + 48)

/-- The BHP header for a payload of length `n`:
`str(len(data)).rjust(HEADER, "0").encode()` with `HEADER = 32`
(protocols.py line 661), the ASCII decimal length left padded with zeros. -/
def bhpHeader (n : Nat) : List Nat :=
  List.replicate (32 - (pyStrNatAscii n).length) 48 ++ pyStrNatAscii n

/-- BHP.send (protocols.py lines 645 to 668): prepends the 32 byte header and
performs one `inner.send`, which appends header plus payload to the stream. -/
def bhpSend (stream : List Nat) (data : List Nat) : List Nat :=
  stream ++ (bhpHeader data.length ++ data)

/-- Python `int(s)` on the decoded header: `none` models the ValueError that
`int` raises on an empty string or on a non digit character; otherwise the
value of the decimal numeral (bytes 48 to 57 are the digit characters). -/
def parseAsciiNat (s : List Nat) : Option Nat :=
  if s ≠ [] ∧ ∀ c ∈ s, 48 ≤ c ∧ c ≤ 57 then
    some (s.foldl (fun acc c => acc * 10 + (c - 48)) 0)
  else none

/-- BHP.receive (protocols.py lines 670 to 709) over a faithful inner stream.
With an explicit buffer it performs one inner receive of that size. With no
buffer it first reads the 32 byte header with `inner.receive(buffer = 32)`;
an empty or all zero header (the source compares the count of the character
zero with the length) yields empty bytes; otherwise it reads `int(header)`
bytes. Returns the received bytes and the remaining stream. -/
def bhpReceive (stream : List Nat) (buffer : Option Nat) :
    Except PyErr (List Nat × List Nat) :=
  match buffer with
  | some b => Except.ok (stream.take b, stream.drop b)
  | none =>
    let message := stream.take 32
    let rest := stream.drop 32
    if message.length = 0 ∨ message.count 48 = message.length then
      Except.ok ([], rest)
    else
      match parseAsciiNat message with
      | none => Except.error PyErr.valueError
      | some b => Except.ok (rest.take b, rest.drop b)

/-! Auxiliary facts about the header and its decimal parse. -/

/-- Folding the decimal accumulator over a block of zero characters starting
from accumulator zero stays at zero. -/
theorem foldl_digit_all48 (l : List Nat) (h : ∀ c ∈ l, c = 48) :
    l.foldl (fun acc c => acc * 10 + (c - 48)) 0 = 0 := by
  induction l with
  | nil => rfl
  | cons c l ih =>
    have hc : c = 48 := h c (List.mem_cons_self c l)
    have hl : ∀ x ∈ l, x = 48 := fun x hx => h x (List.mem_cons_of_mem c hx)
    simp [List.foldl_cons, hc, ih hl]

/-- Folding the decimal accumulator over the ASCII digits of a big endian
digit list recovers the little endian `Nat.ofDigits` value. -/
theorem foldl_digit_reverse (ds : List Nat) (acc : Nat) :
    (ds.reverse.map (fun d => d + 48)).foldl
      (fun acc c => acc * 10 + (c - 48)) acc
      = acc * 10 ^ ds.length + Nat.ofDigits 10 ds := by
  induction ds generalizing acc with
  | nil => simp [Nat.ofDigits_nil]
  | cons d ds ih =>
    have : (d :: ds).reverse.map (fun d => d + 48)
        = ds.reverse.map (fun d => d + 48) ++ [d + 48] := by
      simp
    rw [this, List.foldl_append, ih acc]
    simp only [List.foldl_cons, List.foldl_nil, Nat.ofDigits_cons,
      List.length_cons]
    have hd : d + 48 - 48 = d := by omega
    rw [hd]
    ring

/-- The decimal accumulator over the full header recovers the length. -/
theorem foldl_bhpHeader (n : Nat) :
    (bhpHeader n).foldl (fun acc c => acc * 10 + (c - 48)) 0 = n := by
  have hrep : ∀ k, (List.replicate k 48).foldl
      (fun acc c => acc * 10 + (c - 48)) 0 = 0 := by
    intro k
    apply foldl_digit_all48
    intro c hc
    exact List.eq_of_mem_replicate hc
  rw [bhpHeader, List.foldl_append, hrep]
  by_cases hn : n = 0
  · subst hn
    rfl
  · rw [pyStrNatAscii, pyStrNat, if_neg hn, foldl_digit_reverse]
    simp [Nat.ofDigits_digits]

/-- Every byte of the header is an ASCII digit. -/
theorem bhpHeader_digits (n : Nat) :
    ∀ c ∈ bhpHeader n, 48 ≤ c ∧ c ≤ 57 := by
  intro c hc
  rw [bhpHeader] at hc
  rcases List.mem_append.mp hc with h | h
  · have := List.eq_of_mem_replicate h
    omega
  · rw [pyStrNatAscii] at h
    rcases List.mem_map.mp h with ⟨d, hd, rfl⟩
    rw [pyStrNat] at hd
    by_cases hn : n = 0
    · rw [if_pos hn] at hd
      simp at hd
      omega
    · rw [if_neg hn] at hd
      rw [List.mem_reverse] at hd
      have : d < 10 := Nat.digits_lt_base (by norm_num) hd
      omega

/-- The header is never the empty list. -/
theorem bhpHeader_ne_nil (n : Nat) : bhpHeader n ≠ [] := by
  rw [bhpHeader, pyStrNatAscii, pyStrNat]
  by_cases hn : n = 0
  · rw [if_pos hn]
    simp
  · rw [if_neg hn]
    have : Nat.digits 10 n ≠ [] := Nat.digits_ne_nil_iff_ne_zero.mpr hn
    simp [this]

/-- Python `int` of the header string is the payload length. -/
theorem parseAsciiNat_bhpHeader (n : Nat) :
    parseAsciiNat (bhpHeader n) = some n := by
  rw [parseAsciiNat, if_pos ⟨bhpHeader_ne_nil n, bhpHeader_digits n⟩,
    foldl_bhpHeader]

/-- With a payload length below `10 ^ 32` the padded header occupies exactly
the 32 bytes that the receiver reads. -/
theorem bhpHeader_length (n : Nat) (h : n < 10 ^ 32) :
    (bhpHeader n).length = 32 := by
  have hlen : (pyStrNatAscii n).length ≤ 32 := by
    rw [pyStrNatAscii, List.length_map, pyStrNat]
    by_cases hn : n = 0
    · rw [if_pos hn]
      norm_num
    · rw [if_neg hn, List.length_reverse]
      by_contra hgt
      push_neg at hgt
      have hle : 10 ^ (Nat.digits 10 n).length ≤ 10 * n :=
        Nat.base_pow_length_digits_le 10 n (by norm_num) hn
      have h33 : (10 : Nat) ^ 33 ≤ 10 ^ (Nat.digits 10 n).length :=
        Nat.pow_le_pow_right (by norm_num) hgt
      have : (10 : Nat) * n < 10 * 10 ^ 32 := by omega
      have : (10 : Nat) * 10 ^ 32 = 10 ^ 33 := by ring
      omega
  rw [bhpHeader, List.length_append, List.length_replicate]
  omega

/-- C1: BHP framing round trips: for every byte payload whose decimal length
fits in 32 ASCII digits, if the inner protocol faithfully returns exactly the
bytes previously sent (honoring each requested buffer size, in order), then
`BHP.receive` called with no explicit buffer on the stream produced by
`BHP.send(p)` returns exactly `p`; the empty payload travels as an all zero
header and is received as empty bytes. -/
theorem bhp_send_receive_roundtrip (p : List Nat) (h : p.length < 10 ^ 32) :
    bhpReceive (bhpSend [] p) none = Except.ok (p, []) := by
  by_cases hp : p = []
  · subst hp
    rfl
  · have hn : p.length ≠ 0 := by
      simpa [List.length_eq_zero] using hp
    have hlen : (bhpHeader p.length).length = 32 := bhpHeader_length p.length h
    have hsend : bhpSend [] p = bhpHeader p.length ++ p := by
      rw [bhpSend, List.nil_append]
    have htake : (bhpHeader p.length ++ p).take 32 = bhpHeader p.length :=
      List.take_left' hlen
    have hdrop : (bhpHeader p.length ++ p).drop 32 = p :=
      List.drop_left' hlen
    have hcount : (bhpHeader p.length).count 48 ≠ (bhpHeader p.length).length := by
      intro hall
      have h48 : ∀ c ∈ bhpHeader p.length, c = 48 := by
        intro c hc
        have := List.count_eq_length.mp hall
        exact (this c hc).symm
      have := foldl_digit_all48 (bhpHeader p.length) h48
      rw [foldl_bhpHeader] at this
      exact hn this
    rw [hsend, bhpReceive]
    simp only [htake, hdrop, hlen]
    rw [if_neg]
    · rw [parseAsciiNat_bhpHeader]
      simp
    · push_neg
      constructor
      · norm_num
      · simpa [hlen] using hcount

/-- Witness for C1 at the concrete payload `[104, 105]`. -/
theorem bhp_send_receive_roundtrip_witness :
    ([104, 105] : List Nat).length < 10 ^ 32 ∧
      bhpReceive (bhpSend [] [104, 105]) none = Except.ok ([104, 105], []) :=
  ⟨by norm_num, bhp_send_receive_roundtrip [104, 105] (by norm_num)⟩

/-! ## BCP: the buffer chunks protocol (protocols.py, class BCP)

`BCP.receive` takes both a `buffer` and a `length` parameter
(protocols.py lines 767 to 836). The embedding also returns the trace of
buffer sizes requested from the inner protocol, one entry per inner
receive, so that the chunking behaviour can be stated. -/

/-- The `buffer` property of BCP (protocols.py lines 734 to 754): the
explicitly stored size, else the buffer of a buffered inner protocol, else a
ValueError. -/
def bcpBufferProp (bcpBuf innerBuf : Option Nat) : Except PyErr Nat :=
  match bcpBuf with
  | some v => Except.ok v
  | none =>
    match innerBuf with
    | some v => Except.ok v
    | none => Except.error PyErr.valueError

/-- The chunk reading loop of BCP.receive (protocols.py lines 815 to 823):
`k` inner receives of size `b` each. Returns the list of chunks, the
remaining stream and the trace of requested sizes. -/
def bcpChunkLoop (stream : List Nat) (b : Nat) :
    Nat → List (List Nat) × List Nat × List Nat
  | 0 => ([], stream, [])
  | k + 1 =>
    let payload := stream.take b
    let r := bcpChunkLoop (stream.drop b) b k
    (payload :: r.1, r.2.1, b :: r.2.2)

/-- The chunked transfer of BCP.receive (protocols.py lines 805 to 835): the
comparison `buffer >= length` raises a TypeError when `length` is `None`;
otherwise either a single receive of `length`, or `length // buffer`
receives of size `buffer` plus a final receive of `length % buffer`, joined
in order. -/
def bcpChunked (stream : List Nat) (b : Nat) :
    Option Nat → List Nat → Except PyErr ((List Nat × List Nat) × List Nat)
  | none, _trace0 => Except.error PyErr.typeError
  | some L, trace0 =>
    if b ≥ L then
      Except.ok ((stream.take L, stream.drop L), trace0 ++ [L])
    else
      let r := bcpChunkLoop stream b (L / b)
      if L % b ≠ 0 then
        Except.ok
          ((r.1.flatten ++ r.2.1.take (L % b), r.2.1.drop (L % b)),
            trace0 ++ r.2.2 ++ [L % b])
      else
        Except.ok ((r.1.flatten, r.2.1), trace0 ++ r.2.2)

/-- Propagation of a ValueError raised while resolving the buffer size. -/
def bcpAfterBuffer (stream : List Nat) (len : Option Nat)
    (trace0 : List Nat) :
    Except PyErr Nat → Except PyErr ((List Nat × List Nat) × List Nat)
  | Except.error e => Except.error e
  | Except.ok b => bcpChunked stream b len trace0

/-- The part of BCP.receive after the header branch (protocols.py lines 803
to 835): `buffer = buffer or self.buffer` (zero is falsy) resolves the chunk
size, then the chunked transfer runs. -/
def bcpReceiveBody (bcpBuf innerBuf : Option Nat) (stream : List Nat)
    (b0 : Nat) (len : Option Nat) (trace0 : List Nat) :
    Except PyErr ((List Nat × List Nat) × List Nat) :=
  bcpAfterBuffer stream len trace0
    (if b0 = 0 then bcpBufferProp bcpBuf innerBuf else Except.ok b0)

/-- BCP.receive (protocols.py lines 767 to 836) over a faithful inner
stream: with no explicit buffer it first reads the 32 byte header exactly as
BHP.receive does and assigns the parsed value to `buffer`; the `length`
parameter is separate and is never read from the header. -/
def bcpReceive (bcpBuf innerBuf : Option Nat) (stream : List Nat)
    (buffer : Option Nat) (len : Option Nat) :
    Except PyErr ((List Nat × List Nat) × List Nat) :=
  match buffer with
  | some b0 => bcpReceiveBody bcpBuf innerBuf stream b0 len []
  | none =>
    let message := stream.take 32
    let rest := stream.drop 32
    if message.length = 0 ∨ message.count 48 = message.length then
      Except.ok (([], rest), [32])
    else
      match parseAsciiNat message with
      | none => Except.error PyErr.valueError
      | some b0 => bcpReceiveBody bcpBuf innerBuf rest b0 len [32]

/-- The chunk sizes that BCP requests from the inner protocol for a message
of total length `L` read with chunk size `b`. -/
def bcpTrace (b L : Nat) : List Nat :=
  if b ≥ L then [L]
  else List.replicate (L / b) b ++ (if L % b ≠ 0 then [L % b] else [])

/-- The chunk loop takes `k` blocks of `b` bytes whose join is a plain take,
leaves the stream at offset `k * b`, and requests size `b` exactly `k`
times. -/
theorem bcpChunkLoop_spec (b : Nat) :
    ∀ (k : Nat) (stream : List Nat),
      (bcpChunkLoop stream b k).1.flatten = stream.take (k * b) ∧
        (bcpChunkLoop stream b k).2.1 = stream.drop (k * b) ∧
        (bcpChunkLoop stream b k).2.2 = List.replicate k b := by
  intro k
  induction k with
  | zero => intro stream; simp [bcpChunkLoop]
  | succ k ih =>
    intro stream
    obtain ⟨h1, h2, h3⟩ := ih (stream.drop b)
    refine ⟨?_, ?_, ?_⟩
    · show stream.take b ++ (bcpChunkLoop (stream.drop b) b k).1.flatten = _
      rw [h1]
      have : (k + 1) * b = b + k * b := by ring
      rw [this, List.take_add]
    · show (bcpChunkLoop (stream.drop b) b k).2.1 = _
      rw [h2, List.drop_drop]
      congr 1
      ring
    · show b :: (bcpChunkLoop (stream.drop b) b k).2.2 = _
      rw [h3, List.replicate_succ]

/-- The ceiling count of chunks: the trace holds one entry per inner
receive. -/
theorem bcpTrace_length (b L : Nat) (hb : 1 ≤ b) (hL : 1 ≤ L) :
    (bcpTrace b L).length = (L + b - 1) / b := by
  rw [bcpTrace]
  by_cases hge : b ≥ L
  · rw [if_pos hge]
    have hlhs : L + b - 1 = (L - 1) + 1 * b := by omega
    rw [hlhs, Nat.add_mul_div_right _ _ (by omega : 0 < b),
      Nat.div_eq_of_lt (by omega : L - 1 < b)]
    rfl
  · rw [if_neg hge]
    push_neg at hge
    have hmod := Nat.div_add_mod L b
    by_cases hr : L % b = 0
    · have hLq : L + b - 1 = (b - 1) + b * (L / b) := by omega
      simp only [hr, if_neg (by simp : ¬(0 : Nat) ≠ 0)]
      rw [hLq, Nat.add_mul_div_left _ _ (by omega : 0 < b),
        Nat.div_eq_of_lt (by omega : b - 1 < b)]
      simp
    · have hrlt : L % b < b := Nat.mod_lt _ (by omega)
      have hLq : L + b - 1 = (L % b - 1) + b * (L / b + 1) := by
        rw [Nat.mul_succ]
        omega
      rw [if_pos hr, hLq, Nat.add_mul_div_left _ _ (by omega : 0 < b),
        Nat.div_eq_of_lt (by omega : L % b - 1 < b)]
      simp

/-- With a nonzero chunk size and an explicit length the body performs the
chunked receives of `bcpTrace` and returns their concatenation, which is the
prefix of length `L` of the stream. -/
theorem bcpReceiveBody_spec (bcpBuf innerBuf : Option Nat)
    (stream : List Nat) (b L : Nat) (t0 : List Nat) (hb : 1 ≤ b) :
    bcpReceiveBody bcpBuf innerBuf stream b (some L) t0 =
      Except.ok ((stream.take L, stream.drop L), t0 ++ bcpTrace b L) := by
  rw [bcpReceiveBody, if_neg (by omega : ¬b = 0)]
  simp only [bcpAfterBuffer, bcpChunked]
  by_cases hge : b ≥ L
  · rw [if_pos hge, bcpTrace, if_pos hge]
  · rw [if_neg hge, bcpTrace, if_neg hge]
    push_neg at hge
    obtain ⟨h1, h2, h3⟩ := bcpChunkLoop_spec b (L / b) stream
    have hmod := Nat.div_add_mod L b
    have hcomm : L / b * b = b * (L / b) := Nat.mul_comm _ _
    simp only [h1, h2, h3]
    by_cases hr : L % b = 0
    · rw [if_neg (by simpa using hr), if_neg (by simpa using hr)]
      have hqb : L / b * b = L := by omega
      rw [hqb]
      simp
    · rw [if_pos hr, if_pos hr]
      have htake : stream.take (L / b * b) ++
          (stream.drop (L / b * b)).take (L % b) = stream.take L := by
        rw [← List.take_add]
        congr 1
        omega
      have hdrop : (stream.drop (L / b * b)).drop (L % b) = stream.drop L := by
        rw [List.drop_drop]
        congr 1
        omega
      rw [htake, hdrop, List.append_assoc]

/-- Counterexample to C3: the claim says a BCP.receive call with no explicit
buffer reads the total length from the 32 byte BHP header and then receives
the payload. On the code the header value is assigned to `buffer` (the chunk
size) and the `length` parameter stays `None`, so the comparison
`buffer >= length` raises a TypeError and no payload is ever returned: here
the stream holds a header announcing two bytes (31 zero characters followed
by the character two) and then the two payload bytes 97, 98, and the call
fails instead of returning them. -/
theorem bcp_receive_no_buffer_counterexample :
    bcpReceive none (some 1024)
      (List.replicate 31 48 ++ [50] ++ [97, 98]) none none =
      Except.error PyErr.typeError := by
  rfl

/-- C3 (amended): BCP.receive with explicit chunk size `b ≥ 1` and explicit
length `L ≥ 1` performs exactly `⌈L / b⌉` inner receives (`L / b` of size
`b` plus a final one of size `L % b` when `L % b ≠ 0`, or a single receive
of `L` when `b ≥ L`) and returns their concatenation, the first `L` stream
bytes. With no explicit buffer the 32 byte header is read first and its
value `H` is used as the chunk size, not as the total length: an explicit
length is still required, and a call with neither buffer nor length raises a
TypeError after consuming the header. -/
theorem bcp_receive_chunking (bcpBuf innerBuf : Option Nat)
    (stream rest : List Nat) (b L H : Nat)
    (hb : 1 ≤ b) (hL : 1 ≤ L) (hH : 1 ≤ H) (hH32 : H < 10 ^ 32) :
    (bcpReceive bcpBuf innerBuf stream (some b) (some L) =
        Except.ok ((stream.take L, stream.drop L), bcpTrace b L) ∧
      (bcpTrace b L).length = (L + b - 1) / b) ∧
    bcpReceive bcpBuf innerBuf (bhpHeader H ++ rest) none (some L) =
      Except.ok ((rest.take L, rest.drop L), 32 :: bcpTrace H L) ∧
    bcpReceive bcpBuf innerBuf (bhpHeader H ++ rest) none none =
      Except.error PyErr.typeError := by
  have hlen : (bhpHeader H).length = 32 := bhpHeader_length H hH32
  have htake : (bhpHeader H ++ rest).take 32 = bhpHeader H :=
    List.take_left' hlen
  have hdrop : (bhpHeader H ++ rest).drop 32 = rest :=
    List.drop_left' hlen
  have hcount : (bhpHeader H).count 48 ≠ (bhpHeader H).length := by
    intro hall
    have h48 : ∀ c ∈ bhpHeader H, c = 48 := by
      intro c hc
      exact (List.count_eq_length.mp hall c hc).symm
    have := foldl_digit_all48 (bhpHeader H) h48
    rw [foldl_bhpHeader] at this
    omega
  have hbranch : ∀ len, bcpReceive bcpBuf innerBuf (bhpHeader H ++ rest)
      none len = bcpReceiveBody bcpBuf innerBuf rest H len [32] := by
    intro len
    rw [bcpReceive]
    simp only [htake, hdrop, hlen]
    rw [if_neg (by push_neg; exact ⟨by norm_num, by simpa [hlen] using hcount⟩),
      parseAsciiNat_bhpHeader]
  refine ⟨⟨?_, bcpTrace_length b L hb hL⟩, ?_, ?_⟩
  · rw [bcpReceive, bcpReceiveBody_spec bcpBuf innerBuf stream b L [] hb]
    simp
  · rw [hbranch (some L), bcpReceiveBody_spec bcpBuf innerBuf rest H L [32] hH]
    simp
  · rw [hbranch none, bcpReceiveBody, if_neg (by omega : ¬H = 0)]
    rfl

/-- Witness for C3 (amended) at chunk size 2, length 5, header value 3. -/
theorem bcp_receive_chunking_witness :
    (1 : Nat) ≤ 2 ∧ (1 : Nat) ≤ 5 ∧ (1 : Nat) ≤ 3 ∧ (3 : Nat) < 10 ^ 32 ∧
    ((bcpReceive none (some 1024) [1, 2, 3, 4, 5, 6] (some 2) (some 5) =
        Except.ok (([1, 2, 3, 4, 5], [6]), bcpTrace 2 5) ∧
      (bcpTrace 2 5).length = (5 + 2 - 1) / 2) ∧
    bcpReceive none (some 1024) (bhpHeader 3 ++ [1, 2, 3, 4, 5, 6]) none
        (some 5) =
      Except.ok (([1, 2, 3, 4, 5], [6]), 32 :: bcpTrace 3 5) ∧
    bcpReceive none (some 1024) (bhpHeader 3 ++ [1, 2, 3, 4, 5, 6]) none
        none = Except.error PyErr.typeError) :=
  ⟨by norm_num, by norm_num, by norm_num, by norm_num,
    bcp_receive_chunking none (some 1024) [1, 2, 3, 4, 5, 6]
      [1, 2, 3, 4, 5, 6] 2 5 3 (by norm_num) (by norm_num) (by norm_num)
      (by norm_num)⟩

/-! ## Socket (sockets.py, class Socket)

The raw connection is abstracted as a numeric handle; the protocol strategy
object is abstracted as the send and receive functions that `Socket`
delegates to. The `on_init`, `on_send`, `on_receive` and `on_close` user
callbacks are external collaborators and are not modelled. -/

/-- An address: a host and port pair. -/
abbrev Address : Type := String × Nat

/-- The mutable state of a Socket object (sockets.py lines 22 to 66). -/
structure SocketM where
  connection : Option Nat
  closed : Bool
  reusable : Bool
  connectionsCount : Nat
  address : Option Address
  deriving DecidableEq, Repr

/-- Socket.close (sockets.py lines 246 to 263): a no op when already
closed; otherwise it closes the raw connection, then a reusable socket
receives a fresh raw socket from the protocol (`fresh` names the new
handle) while a non reusable one drops its connection and records the
closed flag. -/
def socketClose (fresh : Nat) (s : SocketM) : Except PyErr SocketM :=
  if s.closed then Except.ok s
  else
    match s.connection with
    | none => Except.error PyErr.attributeError
    | some _ =>
      if s.reusable then Except.ok { s with connection := some fresh }
      else Except.ok { s with connection := none, closed := true }

/-- TCP.send (protocols.py lines 364 to 383): `connection.send(data)`
raises an AttributeError when the connection is `None` (the Python
NoneType has no `send` attribute); otherwise the data and address are
returned unchanged. -/
def tcpProtocolSend (conn : Option Nat) (data : List Nat)
    (address : Option Address) : Except PyErr (List Nat × Option Address) :=
  match conn with
  | none => Except.error PyErr.attributeError
  | some _ => Except.ok (data, address)

/-- TCP.receive (protocols.py lines 385 to 402): `connection.recv(buffer)`
raises an AttributeError when the connection is `None`; otherwise it
returns the bytes the stream yields (`recvData`) with the given address. -/
def tcpProtocolReceive (recvData : List Nat) (conn : Option Nat)
    (address : Option Address) : Except PyErr (List Nat × Option Address) :=
  match conn with
  | none => Except.error PyErr.attributeError
  | some _ => Except.ok (recvData, address)

/-- Socket.send (sockets.py lines 193 to 217): delegates to
`protocol.send(connection or self.connection, data, address or
self.address)` with no state validation of any kind. -/
def socketSend
    (protoSend : Option Nat → List Nat → Option Address →
      Except PyErr (List Nat × Option Address))
    (s : SocketM) (connArg : Option Nat) (data : List Nat)
    (addrArg : Option Address) :
    Except PyErr ((List Nat × Option Address) × SocketM) :=
  match protoSend (pyOr connArg s.connection) data (pyOr addrArg s.address)
    with
  | Except.error e => Except.error e
  | Except.ok out => Except.ok (out, s)

/-- Socket.receive (sockets.py lines 219 to 244): delegates to
`protocol.receive(connection or self.connection, address or self.address)`
and, when neither the argument address nor the stored address is set,
stores the address the protocol returned. -/
def socketReceive
    (protoRecv : Option Nat → Option Address →
      Except PyErr (List Nat × Option Address))
    (s : SocketM) (connArg : Option Nat) (addrArg : Option Address) :
    Except PyErr ((List Nat × Option Address) × SocketM) :=
  match protoRecv (pyOr connArg s.connection) (pyOr addrArg s.address) with
  | Except.error e => Except.error e
  | Except.ok (data, newAddress) =>
    let s2 :=
      if addrArg = none ∧ s.address = none then
        { s with address := newAddress }
      else s
    Except.ok ((data, newAddress), s2)

/-- C2: evaluation of the embedded code at the failing input. On a closed
non reusable socket `Socket.send` and `Socket.receive` perform no usage
validation at all (`validate_open`, which raises the ValueError, is never
called by them), so the failure surfaces as an AttributeError on the `None`
connection instead of the claimed ValueError: closing the plain socket
with handle 0 empties the connection, and both subsequent calls fail with
`PyErr.attributeError`, which is not `PyErr.valueError`. -/
theorem socket_send_after_close_not_usage_error :
    socketClose 99 ⟨some 0, false, false, 1, none⟩ =
      Except.ok ⟨none, true, false, 1, none⟩ ∧
    socketSend tcpProtocolSend ⟨none, true, false, 1, none⟩ none [120] none =
      Except.error PyErr.attributeError ∧
    socketReceive (tcpProtocolReceive []) ⟨none, true, false, 1, none⟩
        none none =
      Except.error PyErr.attributeError ∧
    PyErr.attributeError ≠ PyErr.valueError := by
  refine ⟨rfl, rfl, rfl, ?_⟩
  decide

/-- C9: Socket.receive caches the first observed peer address. When the
stored address is `None`, a receive with no address argument stores the
address the protocol returned; once the stored address is set, a receive
leaves it unchanged; and a send with no explicit address hands the stored
address to the protocol. -/
theorem socket_receive_address_caching
    (protoRecv : Option Nat → Option Address →
      Except PyErr (List Nat × Option Address))
    (protoSend : Option Nat → List Nat → Option Address →
      Except PyErr (List Nat × Option Address))
    (s : SocketM) (d data : List Nat) (na : Option Address) (a : Address)
    (out : List Nat × Option Address) :
    (s.address = none → protoRecv s.connection none = Except.ok (d, na) →
      socketReceive protoRecv s none none =
        Except.ok ((d, na), { s with address := na })) ∧
    (s.address = some a →
      protoRecv s.connection (some a) = Except.ok (d, na) →
      socketReceive protoRecv s none none = Except.ok ((d, na), s)) ∧
    (protoSend s.connection data s.address = Except.ok out →
      socketSend protoSend s none data none = Except.ok (out, s)) := by
  refine ⟨?_, ?_, ?_⟩
  · intro hnone hrecv
    rw [socketReceive]
    show (match protoRecv s.connection (pyOr none s.address) with
      | Except.error e => Except.error e
      | Except.ok (data, newAddress) => _) = _
    rw [pyOr, hnone, hrecv]
    simp [hnone]
  · intro hsome hrecv
    rw [socketReceive]
    show (match protoRecv s.connection (pyOr none s.address) with
      | Except.error e => Except.error e
      | Except.ok (data, newAddress) => _) = _
    rw [pyOr, hsome, hrecv]
    simp [hsome]
  · intro hsend
    rw [socketSend]
    show (match protoSend s.connection data (pyOr none s.address) with
      | Except.error e => Except.error e
      | Except.ok out => _) = _
    rw [pyOr, hsend]

/-- Witness for C9 at concrete sockets: a fresh socket with no stored
address caches the peer address returned by the protocol, a socket that
already stores an address keeps it, and a send passes the stored address
through. -/
theorem socket_receive_address_caching_witness :
    socketReceive (fun _ _ => Except.ok ([7], some ("peer", 1)))
        ⟨some 0, false, false, 1, none⟩ none none =
      Except.ok (([7], some ("peer", 1)),
        ⟨some 0, false, false, 1, some ("peer", 1)⟩) ∧
    socketReceive (fun _ a => Except.ok ([7], a))
        ⟨some 0, false, false, 1, some ("kept", 2)⟩ none none =
      Except.ok (([7], some ("kept", 2)),
        ⟨some 0, false, false, 1, some ("kept", 2)⟩) ∧
    socketSend (fun _ data a => Except.ok (data, a))
        ⟨some 0, false, false, 1, some ("kept", 2)⟩ none [5] none =
      Except.ok (([5], some ("kept", 2)),
        ⟨some 0, false, false, 1, some ("kept", 2)⟩) :=
  ⟨(socket_receive_address_caching (fun _ _ => Except.ok ([7], some ("peer", 1)))
      (fun _ data a => Except.ok (data, a))
      ⟨some 0, false, false, 1, none⟩ [7] [5] (some ("peer", 1)) ("x", 0)
      ([5], none)).1 rfl rfl,
    (socket_receive_address_caching (fun _ a => Except.ok ([7], a))
      (fun _ data a => Except.ok (data, a))
      ⟨some 0, false, false, 1, some ("kept", 2)⟩ [7] [5]
      (some ("kept", 2)) ("kept", 2) ([5], none)).2.1 rfl rfl,
    (socket_receive_address_caching (fun _ a => Except.ok ([7], a))
      (fun _ data a => Except.ok (data, a))
      ⟨some 0, false, false, 1, some ("kept", 2)⟩ [7] [5]
      (some ("kept", 2)) ("kept", 2) ([5], some ("kept", 2))).2.2 rfl⟩

/-! ## DataStore (pubsub/store.py, class DataStore)

For the key validation and copy operations the stored `Data` entries are
opaque, so they are abstracted as numeric handles. -/

/-- The state of a DataStore: an insertion ordered mapping from string keys
to lists of stored entries, plus the optional per key limit. -/
structure DataStoreM where
  storage : List (String × List Nat)
  limit : Option Nat
  deriving DecidableEq, Repr

/-- Python `key in storage` on the storage dict. -/
def storageHasKey (st : List (String × List Nat)) (key : String) : Bool :=
  st.any (fun kv => kv.1 == key)

/-- DataStore.is_valid_key (store.py lines 54 to 63): the source returns
`key not in self.storage`. -/
def dataStoreIsValidKey (s : DataStoreM) (key : String) : Bool :=
  !(storageHasKey s.storage key)

/-- DataStore.validate_key (store.py lines 65 to 76): raises a KeyError
when `is_valid_key` holds. -/
def dataStoreValidateKey (s : DataStoreM) (key : String) :
    Except PyErr Unit :=
  if dataStoreIsValidKey s key then Except.error PyErr.keyError
  else Except.ok ()

/-- C8: evaluation of the embedded code at the failing input. The claim
says `is_valid_key(key)` is true exactly when the key exists, but the
source returns `key not in self.storage`: on a store holding only the key
k, `is_valid_key` answers false for the present key k and true for the
absent key a. The second half of the claim does hold: `validate_key`
raises the KeyError exactly for the absent key. -/
theorem data_store_is_valid_key_inverted :
    dataStoreIsValidKey ⟨[("k", [0])], none⟩ "k" = false ∧
    dataStoreIsValidKey ⟨[("k", [0])], none⟩ "a" = true ∧
    dataStoreValidateKey ⟨[("k", [0])], none⟩ "a" =
      Except.error PyErr.keyError ∧
    dataStoreValidateKey ⟨[("k", [0])], none⟩ "k" = Except.ok () :=
  ⟨rfl, rfl, rfl, rfl⟩

/-- Python tuple unpacking `key, values = s` of a string: succeeds only for
a two character string, yielding its two characters, and raises a
ValueError otherwise. -/
def strUnpack2 (s : String) : Except PyErr (Char × Char) :=
  match s.toList with
  | [c1, c2] => Except.ok (c1, c2)
  | _ => Except.error PyErr.valueError

/-- The dict comprehension of DataStore.copy (store.py line 238):
`for key, values in self.storage` iterates the dict, which yields its keys,
so each string key is unpacked as a pair and `values.copy()` is then called
on a one character string, which has no `copy` attribute. -/
def copyComprehension : List String → Except PyErr (List (String × List Nat))
  | [] => Except.ok []
  | key :: _ =>
    match strUnpack2 key with
    | Except.error e => Except.error e
    | Except.ok _ => Except.error PyErr.attributeError

/-- DataStore.copy (store.py lines 230 to 240). -/
def dataStoreCopy (s : DataStoreM) : Except PyErr DataStoreM :=
  match copyComprehension (s.storage.map Prod.fst) with
  | Except.error e => Except.error e
  | Except.ok st => Except.ok ⟨st, s.limit⟩

/-- C7: evaluation of the embedded code at the failing input. The claim
says `copy()` returns a structural clone and never raises on a store with
at least one key, but the comprehension iterates the dict instead of its
items: with the four character key AAPL the tuple unpacking raises a
ValueError, with a two character key the unpacking succeeds and the char
`copy()` call raises an AttributeError, and only the empty store is
cloned. -/
theorem data_store_copy_raises :
    dataStoreCopy ⟨[("AAPL", [0])], none⟩ = Except.error PyErr.valueError ∧
    dataStoreCopy ⟨[("ab", [0, 1])], some 3⟩ =
      Except.error PyErr.attributeError ∧
    dataStoreCopy ⟨[], some 3⟩ = Except.ok ⟨[], some 3⟩ :=
  ⟨rfl, rfl, rfl⟩

/-! ## StreamController and the close endpoint (pubsub/streamer.py)

The three loop operators of a controller (sender, receiver, send queue
drain) come from the external Operator capability; their observable flags
are modelled directly, and each pause, unpause or stop call is recorded in
an action trace in call order. -/

/-- The observable flags of one loop operator. -/
structure OperatorM where
  paused : Bool
  stopped : Bool
  deriving DecidableEq, Repr

/-- The operators owned by one StreamController plus its socket flag. -/
structure ControllerOps where
  sender : OperatorM
  receiver : OperatorM
  queue : OperatorM
  socketClosed : Bool
  deriving DecidableEq, Repr

/-- One recorded operator call of a controller method. -/
inductive CtlAct where
  | senderPause
  | receiverPause
  | queuePause
  | senderUnpause
  | receiverUnpause
  | queueUnpause
  deriving DecidableEq, Repr

/-- StreamController.pause (streamer.py lines 218 to 223): pauses the
sender, then the receiver, then the queue socket, in that call order. -/
def controllerPause (c : ControllerOps) : ControllerOps × List CtlAct :=
  let c1 := { c with sender := { c.sender with paused := true } }
  let t1 := [CtlAct.senderPause]
  let c2 := { c1 with receiver := { c1.receiver with paused := true } }
  let t2 := t1 ++ [CtlAct.receiverPause]
  let c3 := { c2 with queue := { c2.queue with paused := true } }
  let t3 := t2 ++ [CtlAct.queuePause]
  (c3, t3)

/-- StreamController.unpause (streamer.py lines 225 to 230): unpauses the
queue socket, then the sender, then the receiver, in that call order. -/
def controllerUnpause (c : ControllerOps) : ControllerOps × List CtlAct :=
  let c1 := { c with queue := { c.queue with paused := false } }
  let t1 := [CtlAct.queueUnpause]
  let c2 := { c1 with sender := { c1.sender with paused := false } }
  let t2 := t1 ++ [CtlAct.senderUnpause]
  let c3 := { c2 with receiver := { c2.receiver with paused := false } }
  let t3 := t2 ++ [CtlAct.receiverUnpause]
  (c3, t3)

/-- Counterexample to C6: the claim says `unpause` resumes in the inverse
of the pause order, that is the queue drain first, then the receiver, then
the sender. On the code the call order of `unpause` is queue, sender,
receiver: at a fully paused controller the recorded trace is queue
unpause, sender unpause, receiver unpause, which differs from the claimed
trace queue unpause, receiver unpause, sender unpause. -/
theorem controller_unpause_order_counterexample :
    (controllerUnpause
        ⟨⟨true, false⟩, ⟨true, false⟩, ⟨true, false⟩, false⟩).2 =
      [CtlAct.queueUnpause, CtlAct.senderUnpause, CtlAct.receiverUnpause] ∧
    (controllerUnpause
        ⟨⟨true, false⟩, ⟨true, false⟩, ⟨true, false⟩, false⟩).2 ≠
      [CtlAct.queueUnpause, CtlAct.receiverUnpause, CtlAct.senderUnpause] :=
  ⟨rfl, by decide⟩

/-- C6 (amended): `pause` suspends the sender, then the receiver, then the
queue drain; `unpause` resumes the queue drain first, then the sender, then
the receiver, so the resume order is not the exact inverse of the pause
order (the last two calls are swapped). Both leave the paused flags of all
three operators set accordingly. -/
theorem controller_pause_unpause_order (c : ControllerOps) :
    controllerPause c =
      (⟨⟨true, c.sender.stopped⟩, ⟨true, c.receiver.stopped⟩,
          ⟨true, c.queue.stopped⟩, c.socketClosed⟩,
        [CtlAct.senderPause, CtlAct.receiverPause, CtlAct.queuePause]) ∧
    controllerUnpause c =
      (⟨⟨false, c.sender.stopped⟩, ⟨false, c.receiver.stopped⟩,
          ⟨false, c.queue.stopped⟩, c.socketClosed⟩,
        [CtlAct.queueUnpause, CtlAct.senderUnpause,
          CtlAct.receiverUnpause]) := by
  obtain ⟨⟨sp, ss⟩, ⟨rp, rs⟩, ⟨qp, qs⟩, sc⟩ := c
  exact ⟨rfl, rfl⟩

/-- StreamController.stop (streamer.py lines 232 to 237): stops the
receiver, the sender and the queue socket without touching the raw
socket. -/
def controllerStop (c : ControllerOps) : ControllerOps :=
  { c with
    receiver := { c.receiver with stopped := true }
    sender := { c.sender with stopped := true }
    queue := { c.queue with stopped := true } }

/-- StreamController.close (streamer.py lines 239 to 243): `stop()`
followed by `queue_socket.close()`, and SocketSenderQueue.close
(queue.py lines 165 to 169) closes the underlying socket. -/
def controllerClose (c : ControllerOps) : ControllerOps :=
  { controllerStop c with socketClosed := true }

/-- The registries of a SubscriptionStreamer: `clients` maps a socket
address to the id of its controller (streamer.py line 364) and
`subscribers` maps a controller id to the id of its server side subscriber
(streamer.py line 896). -/
structure SubStreamerM where
  clients : List (Address × Nat)
  subscribers : List (Nat × Nat)
  deriving DecidableEq, Repr

/-- The default close endpoint (streamer.py lines 708 to 729) run on a
SubscriptionStreamer: `controller.close()`, then
`streamer.subscribers.pop(controller, None)`, then `on_leave(controller,
data)` when the hook is set. The returned number counts the `on_leave`
invocations. Nothing in the endpoint touches `streamer.clients`. -/
def closeEndpointRun (st : SubStreamerM) (cid : Nat) (c : ControllerOps)
    (hasOnLeave : Bool) : SubStreamerM × ControllerOps × Nat :=
  let c2 := controllerClose c
  let st2 :=
    { st with subscribers := st.subscribers.eraseP (fun kv => kv.1 == cid) }
  let leaveCount := if hasOnLeave then 1 else 0
  (st2, c2, leaveCount)

/-- Counterexample to C5: the claim says the default close endpoint removes
the controller from the clients registry. On a streamer whose clients
registry holds controller 7 under the loopback address, running the close
endpoint on controller 7 leaves the clients registry unchanged, still
holding controller 7. -/
theorem close_endpoint_clients_counterexample :
    ((closeEndpointRun ⟨[(("127.0.0.1", 5000), 7)], [(7, 0)]⟩ 7
        ⟨⟨false, false⟩, ⟨false, false⟩, ⟨false, false⟩, false⟩
        true).1).clients = [(("127.0.0.1", 5000), 7)] ∧
    (((closeEndpointRun ⟨[(("127.0.0.1", 5000), 7)], [(7, 0)]⟩ 7
        ⟨⟨false, false⟩, ⟨false, false⟩, ⟨false, false⟩, false⟩
        true).1).clients.map Prod.snd).contains 7 = true :=
  ⟨rfl, rfl⟩

/-- C5 (amended): with the `on_leave` hook set, the default close endpoint
of a SubscriptionStreamer stops the sender, receiver and queue drain of the
controller and closes its socket, removes the controller entry from the
subscribers mapping, and fires `on_leave` exactly once; the clients
registry is left unchanged (the exception callback, not the close endpoint,
is what removes a client from the registry). -/
theorem close_endpoint_effects (st : SubStreamerM) (cid : Nat)
    (c : ControllerOps) :
    (closeEndpointRun st cid c true).1.clients = st.clients ∧
    (closeEndpointRun st cid c true).1.subscribers =
      st.subscribers.eraseP (fun kv => kv.1 == cid) ∧
    (closeEndpointRun st cid c true).2.1.sender.stopped = true ∧
    (closeEndpointRun st cid c true).2.1.receiver.stopped = true ∧
    (closeEndpointRun st cid c true).2.1.queue.stopped = true ∧
    (closeEndpointRun st cid c true).2.1.socketClosed = true ∧
    (closeEndpointRun st cid c true).2.2 = 1 :=
  ⟨rfl, rfl, rfl, rfl, rfl, rfl, rfl⟩

/-! ## JSON values and Data messages (pubsub/data.py)

Decoded JSON payloads are Python values: the embedding covers None,
booleans, integers, strings, lists, string keyed dicts, and instances of
the Data dataclass (which appear inside payloads after
`ClientSubscriber.data` loads nested dicts into Data objects). The byte
level JSON codec itself belongs to the external json module and is passed
in as a function. -/

/-- A Python value as it appears in decoded pub/sub payloads. -/
inductive PyVal where
  | pynone
  | pybool (b : Bool)
  | pyint (n : Int)
  | pystr (s : String)
  | pylist (xs : List PyVal)
  | pydict (entries : List (String × PyVal))
  | pydata (name time data : PyVal)

/-- Dict lookup `entries.get(key)`. -/
def pyGet (entries : List (String × PyVal)) (key : String) : Option PyVal :=
  (entries.find? (fun kv => kv.1 == key)).map Prod.snd

/-- Dict lookup with a default, `entries.get(key, dflt)`. -/
def pyGetD (entries : List (String × PyVal)) (key : String) (dflt : PyVal) :
    PyVal :=
  (pyGet entries key).getD dflt

/-- Dict assignment `entries[key] = v`. -/
def pySet (entries : List (String × PyVal)) (key : String) (v : PyVal) :
    List (String × PyVal) :=
  if entries.any (fun kv => kv.1 == key) then
    entries.map (fun kv => if kv.1 == key then (kv.1, v) else kv)
  else entries ++ [(key, v)]

/-- A Data message (data.py lines 47 to 58): the three dataclass fields,
each defaulting to None. -/
structure DataM where
  name : PyVal
  time : PyVal
  data : PyVal

/-- Data.load (data.py lines 60 to 74): reads the `name`, `time` and
`data` keys of the payload dict, raising a KeyError when one is absent. -/
def dataLoad (payload : List (String × PyVal)) : Except PyErr DataM :=
  match pyGet payload "name", pyGet payload "time", pyGet payload "data"
    with
  | some n, some t, some d => Except.ok ⟨n, t, d⟩
  | _, _, _ => Except.error PyErr.keyError

/-- Python `data.name != AUTHENTICATE` negated: a value equals the string
authenticate only when it is that string (a non string never equals a
string). -/
def pyIsAuthName : PyVal → Bool
  | PyVal.pystr s => s == "authenticate"
  | _ => false

/-- The exception classes caught by the receive handler (streamer.py line
540): ValueError, TypeError and KeyError. -/
def pyCaught : PyErr → Bool
  | PyErr.valueError => true
  | PyErr.typeError => true
  | PyErr.keyError => true
  | PyErr.attributeError => false

/-! ## The default receiver (pubsub/streamer.py, streamer_receive) -/

/-- A message given to `queue_socket.send`, which appends it to the send
queue (queue.py lines 150 to 163). The source enqueues
`Data.encode(Data(name, time, data))`; the embedding keeps the structured
message and leaves the JSON serialization to the external codec. -/
structure SentMsg where
  name : PyVal
  time : Nat
  data : PyVal

/-- The controller state observed by the receiver: the authenticated flag
and the send queue contents. -/
structure RecvCtrl where
  authenticated : Bool
  queue : List SentMsg

/-- The outcome of one `streamer_receive` call: the new controller state,
the endpoint invoked (when one was), and whether the `on_invalid` and
`on_unauthenticated` hooks fired. -/
structure RecvResult where
  ctrl : RecvCtrl
  endpointCalled : Option String
  invalidFired : Bool
  unauthenticatedFired : Bool

/-- The error response of streamer_receive (lines 543 to 554): name is
`payload.get("name", "response")`, and the data dict carries the response
text and the original payload under `request`. -/
def respMsg (payload : List (String × PyVal)) (msg : String) (now : Nat) :
    SentMsg :=
  ⟨pyGetD payload "name" (PyVal.pystr "response"), now,
    PyVal.pydict
      [("response", PyVal.pystr msg), ("request", PyVal.pydict payload)]⟩

/-- streamer_receive (streamer.py lines 492 to 563) for one received
frame. `decode` is the external JSON codec (`Data.decode`); `endpoints`
lists the registered endpoint names, and an invoked endpoint is recorded
rather than run (endpoint bodies are separate code). An empty frame
returns at once. A decode failure of a caught class, a missing Data field,
or a missing endpoint takes the invalid branch, which enqueues an invalid
request response and fires `on_invalid` when set. On an unauthenticated
controller a request whose name is not the string authenticate enqueues an
unauthenticated response and fires `on_unauthenticated` when set, without
any endpoint lookup. -/
def streamer_receive (decode : List Nat → Except PyErr (List (String × PyVal)))
    (now : Nat) (endpoints : List String) (authenticate : Bool)
    (onInvalid onUnauthenticated : Bool) (ctrl : RecvCtrl)
    (received : List Nat) : Except PyErr RecvResult :=
  if received.isEmpty then
    Except.ok ⟨ctrl, none, false, false⟩
  else
    match decode received with
    | Except.error e =>
      if pyCaught e then
        Except.ok ⟨⟨ctrl.authenticated,
            ctrl.queue ++ [respMsg [] "invalid request" now]⟩,
          none, onInvalid, false⟩
      else Except.error e
    | Except.ok payload =>
      match dataLoad payload with
      | Except.error _ =>
        Except.ok ⟨⟨ctrl.authenticated,
            ctrl.queue ++ [respMsg payload "invalid request" now]⟩,
          none, onInvalid, false⟩
      | Except.ok d =>
        if authenticate && !(pyIsAuthName d.name) && !ctrl.authenticated
          then
          Except.ok ⟨⟨ctrl.authenticated,
              ctrl.queue ++ [respMsg payload "unauthenticated" now]⟩,
            none, false, onUnauthenticated⟩
        else
          match d.name with
          | PyVal.pystr nm =>
            if endpoints.contains nm then
              Except.ok ⟨ctrl, some nm, false, false⟩
            else
              Except.ok ⟨⟨ctrl.authenticated,
                  ctrl.queue ++ [respMsg payload "invalid request" now]⟩,
                none, onInvalid, false⟩
          | _ =>
            Except.ok ⟨⟨ctrl.authenticated,
                ctrl.queue ++ [respMsg payload "invalid request" now]⟩,
              none, onInvalid, false⟩

/-- C4: on a controller that requires authentication and is not yet
authenticated, a well formed request whose name is not authenticate
invokes no endpoint; a response whose data carries response =
unauthenticated and the original payload under request is appended to the
controller send queue, the `on_unauthenticated` hook fires, and
`on_invalid` does not. -/
theorem streamer_receive_unauthenticated
    (decode : List Nat → Except PyErr (List (String × PyVal)))
    (now : Nat) (endpoints : List String) (onInvalid : Bool)
    (ctrl : RecvCtrl) (received : List Nat)
    (payload : List (String × PyVal)) (d : DataM)
    (hne : received ≠ [])
    (hdec : decode received = Except.ok payload)
    (hload : dataLoad payload = Except.ok d)
    (hname : pyIsAuthName d.name = false)
    (hauth : ctrl.authenticated = false) :
    streamer_receive decode now endpoints true onInvalid true ctrl
        received =
      Except.ok ⟨⟨false, ctrl.queue ++ [respMsg payload "unauthenticated"
          now]⟩,
        none, false, true⟩ := by
  rw [streamer_receive, if_neg (by simpa [List.isEmpty_iff] using hne), hdec]
  dsimp only
  rw [hload]
  dsimp only
  rw [hname, hauth]
  simp

/-- Witness for C4: a ping request on an unauthenticated controller with an
empty send queue is answered with the unauthenticated response and no
endpoint call. -/
theorem streamer_receive_unauthenticated_witness :
    streamer_receive
        (fun _ => Except.ok
          [("name", PyVal.pystr "ping"), ("time", PyVal.pyint 3),
            ("data", PyVal.pynone)])
        7 ["ping", "authenticate"] true true true ⟨false, []⟩ [1] =
      Except.ok ⟨⟨false, [] ++ [respMsg
          [("name", PyVal.pystr "ping"), ("time", PyVal.pyint 3),
            ("data", PyVal.pynone)] "unauthenticated" 7]⟩,
        none, false, true⟩ :=
  streamer_receive_unauthenticated
    (fun _ => Except.ok
      [("name", PyVal.pystr "ping"), ("time", PyVal.pyint 3),
        ("data", PyVal.pynone)])
    7 ["ping", "authenticate"] true ⟨false, []⟩ [1]
    [("name", PyVal.pystr "ping"), ("time", PyVal.pyint 3),
      ("data", PyVal.pynone)]
    ⟨PyVal.pystr "ping", PyVal.pyint 3, PyVal.pynone⟩
    (by decide) rfl rfl rfl rfl

/-! ## ClientSubscriber (pubsub/subscriber.py)

`ClientSubscriber.data` decodes a received frame, optionally converts the
nested maps under the data key into Data objects, and optionally inserts
them into the local DataStore. The local store is keyed by whatever the
name field of each inserted Data object holds, so its keys are Python
values. -/

mutual

/-- Python equality on the embedded values (the Data dataclass compares its
fields; values of different classes are unequal). -/
def pyBeq : PyVal → PyVal → Bool
  | PyVal.pynone, PyVal.pynone => true
  | PyVal.pybool a, PyVal.pybool b => a == b
  | PyVal.pyint a, PyVal.pyint b => a == b
  | PyVal.pystr a, PyVal.pystr b => a == b
  | PyVal.pylist xs, PyVal.pylist ys => pyBeqList xs ys
  | PyVal.pydict xs, PyVal.pydict ys => pyBeqEntries xs ys
  | PyVal.pydata a b c, PyVal.pydata x y z =>
    pyBeq a x && pyBeq b y && pyBeq c z
  | _, _ => false

/-- Elementwise Python equality of two lists. -/
def pyBeqList : List PyVal → List PyVal → Bool
  | [], [] => true
  | x :: xs, y :: ys => pyBeq x y && pyBeqList xs ys
  | _, _ => false

/-- Entrywise Python equality of two dicts in insertion order. -/
def pyBeqEntries :
    List (String × PyVal) → List (String × PyVal) → Bool
  | [], [] => true
  | (k, v) :: xs, (l, w) :: ys => k == l && pyBeq v w && pyBeqEntries xs ys
  | _, _ => false

end

/-- Python `Data(**values)` (subscriber.py lines 198 and 209): a TypeError
unless `values` is a dict whose keys all are dataclass field names; absent
fields default to None. -/
def mkDataKwargs : PyVal → Except PyErr PyVal
  | PyVal.pydict m =>
    if m.all (fun kv => kv.1 == "name" || kv.1 == "time" || kv.1 == "data")
      then
      Except.ok (PyVal.pydata (pyGetD m "name" PyVal.pynone)
        (pyGetD m "time" PyVal.pynone) (pyGetD m "data" PyVal.pynone))
    else Except.error PyErr.typeError
  | _ => Except.error PyErr.typeError

/-- The dict comprehension of the load step (subscriber.py lines 197 to
200): every value under the data key becomes a Data object. -/
def mapValuesData :
    List (String × PyVal) → Except PyErr (List (String × PyVal))
  | [] => Except.ok []
  | (k, v) :: rest =>
    match mkDataKwargs v with
    | Except.error e => Except.error e
    | Except.ok dv =>
      match mapValuesData rest with
      | Except.error e => Except.error e
      | Except.ok rs => Except.ok ((k, dv) :: rs)

/-- The local DataStore of a ClientSubscriber, keyed by the name values of
the inserted Data objects. -/
structure PyStoreM where
  storage : List (PyVal × List PyVal)
  limit : Option Nat

/-- The limit eviction of DataStore.insert (store.py lines 40 to 42): a
falsy limit (absent or zero) disables it, otherwise the oldest entries are
popped until the bucket holds `limit` entries. -/
def evictLimit (limit : Option Nat) (q : List PyVal) : List PyVal :=
  match limit with
  | none => q
  | some 0 => q
  | some l => if q.length > l then q.drop (q.length - l) else q

/-- DataStore.insert (store.py lines 29 to 42) on the client store:
`storage.setdefault(data.name, [])`, append, then limit eviction. Reading
the name attribute of a non Data value raises an AttributeError. -/
def pyStoreInsert (st : PyStoreM) (d : PyVal) : Except PyErr PyStoreM :=
  match d with
  | PyVal.pydata n _ _ =>
    let updated :=
      if st.storage.any (fun kv => pyBeq kv.1 n) then
        st.storage.map (fun kv =>
          if pyBeq kv.1 n then (kv.1, evictLimit st.limit (kv.2 ++ [d]))
          else kv)
      else st.storage ++ [(n, evictLimit st.limit [d])]
    Except.ok { st with storage := updated }
  | _ => Except.error PyErr.attributeError

/-- DataStore.insert_all (store.py lines 44 to 52): insert in order. -/
def pyStoreInsertAll (st : PyStoreM) :
    List PyVal → Except PyErr PyStoreM
  | [] => Except.ok st
  | d :: rest =>
    match pyStoreInsert st d with
    | Except.error e => Except.error e
    | Except.ok st2 => pyStoreInsertAll st2 rest

/-- The generator of the insert step (subscriber.py lines 208 to 211): a
value that already is a Data object is used as is, any other value goes
through `Data(**values)`. -/
def valuesToData : List PyVal → Except PyErr (List PyVal)
  | [] => Except.ok []
  | v :: rest =>
    match (match v with
      | PyVal.pydata n t d => Except.ok (PyVal.pydata n t d)
      | w => mkDataKwargs w) with
    | Except.error e => Except.error e
    | Except.ok dv =>
      match valuesToData rest with
      | Except.error e => Except.error e
      | Except.ok rs => Except.ok (dv :: rs)

/-- ClientSubscriber.data (subscriber.py lines 171 to 213). The received
frame comes from the queue socket receive passthrough; `decode` is the
external JSON codec. When the frame is empty the call returns a default
`Data()` at once and touches nothing. Otherwise the payload is decoded;
when `load` is set and the payload holds a dict under the data key its
values are converted to Data objects; when `insert` is set and a local
store is attached every value under the data key is inserted; finally the
payload dict itself is turned into a Data object through `Data(**data)`. -/
def clientSubscriberData
    (decode : List Nat → Except PyErr (List (String × PyVal)))
    (storage : Option PyStoreM) (received : List Nat)
    (insert load : Bool) : Except PyErr (DataM × Option PyStoreM) :=
  if received.isEmpty then
    Except.ok (⟨PyVal.pynone, PyVal.pynone, PyVal.pynone⟩, storage)
  else
    match decode received with
    | Except.error e => Except.error e
    | Except.ok data0 =>
      let step1 : Except PyErr (List (String × PyVal)) :=
        if load then
          match pyGet data0 "data" with
          | some (PyVal.pydict m) =>
            match mapValuesData m with
            | Except.error e => Except.error e
            | Except.ok m2 =>
              Except.ok (pySet data0 "data" (PyVal.pydict m2))
          | _ => Except.ok data0
        else Except.ok data0
      match step1 with
      | Except.error e => Except.error e
      | Except.ok data1 =>
        let step2 : Except PyErr (Option PyStoreM) :=
          if insert then
            match storage with
            | none => Except.ok storage
            | some st =>
              match pyGet data1 "data" with
              | some (PyVal.pydict m1) =>
                match valuesToData (m1.map Prod.snd) with
                | Except.error e => Except.error e
                | Except.ok ds =>
                  match pyStoreInsertAll st ds with
                  | Except.error e => Except.error e
                  | Except.ok st2 => Except.ok (some st2)
              | _ => Except.ok storage
          else Except.ok storage
        match step2 with
        | Except.error e => Except.error e
        | Except.ok storage2 =>
          match mkDataKwargs (PyVal.pydict data1) with
          | Except.error e => Except.error e
          | Except.ok (PyVal.pydata n t dd) =>
            Except.ok (⟨n, t, dd⟩, storage2)
          | Except.ok _ => Except.error PyErr.typeError

/-- C10: when the underlying receive yields empty bytes,
`ClientSubscriber.data` returns a Data object whose name, time and data
fields all are None, raises nothing, and leaves the attached local store
untouched, whatever the decode function, the store and the insert and load
flags are. -/
theorem client_subscriber_data_empty
    (decode : List Nat → Except PyErr (List (String × PyVal)))
    (storage : Option PyStoreM) (insert load : Bool) :
    clientSubscriberData decode storage [] insert load =
      Except.ok (⟨PyVal.pynone, PyVal.pynone, PyVal.pynone⟩, storage) :=
  rfl

end Socketsio
